import Mathlib

/-!
Shallow embedding of the `bless` BlueZ DBus GATT server backend
(`src/bless/backends/bluezdbus/server.py`, class `BlessServerBlueZDBus`)
and verification of the specification claims about it.

Modelling conventions:
* byte sequences (Python `bytearray`) are `List Nat`;
* Python `dict` (insertion ordered) is an association list `List (String × α)`;
* a Python function that may raise is embedded in `Except PyErr`;
* a Python function whose body can both `return False` and fall off the end
  (returning `None`) yields `Option Bool`: `some b` for an explicit boolean
  return, `none` for Python `None`;
* native DBus round trips that the code does not branch on are abstracted as
  succeeding; where a claim depends on a native failure the outcome of the
  native call is an explicit `Except Unit Unit` argument.

Classes of this repository that are not part of the sources at hand
(`BlueZGattApplication`, `BlueZGattService.get_characteristic`,
`BaseBlessServer.read_request` / `write_request`) are modelled from the
specification; each such definition carries a doc comment starting with
`Modelled from the spec:`.
-/

/-- Python exception kinds that the embedded code can raise. -/
inductive PyErr where
  | keyError
  | stopIteration
  | attributeError
  | duplicateService
  | unknownService
  | duplicateCharacteristic
deriving DecidableEq, Repr

/-- `bless.backends.bluezdbus.characteristic.BlueZGattCharacteristic`:
the app-side (native object graph) characteristic, with its uuid and its
current value. -/
structure BlueZGattCharacteristic where
  uuid : String
  value : List Nat
deriving DecidableEq, Repr

/-- `bless.backends.bluezdbus.service.BlueZGattService`: the app-side
service, owning its characteristics in insertion order. -/
structure BlueZGattService where
  uuid : String
  characteristics : List BlueZGattCharacteristic
deriving DecidableEq, Repr

/-- `bleak.backends.bluezdbus.characteristic.BleakGATTCharacteristicBlueZDBus`
(external collaborator, modelled at its interface boundary): the facade-side
characteristic value object.  Reading `.value` raises when the underlying
property dictionary has no value; this is modelled by `value? = none`. -/
structure BleakGATTCharacteristicBlueZDBus where
  uuid : String
  value? : Option (List Nat)
deriving DecidableEq, Repr

/-- `bleak.backends.bluezdbus.service.BleakGATTServiceBlueZDBus`
(external collaborator, modelled at its interface boundary). -/
structure BleakGATTServiceBlueZDBus where
  uuid : String
  characteristics : List BleakGATTCharacteristicBlueZDBus
deriving DecidableEq, Repr

/-- `BleakGATTServiceBlueZDBus.get_characteristic` (external collaborator):
returns the first characteristic of the service with the given uuid, or
`None` — the caller in `update_value` checks `if not bless_char`. -/
def BleakGATTServiceBlueZDBus.get_characteristic
    (s : BleakGATTServiceBlueZDBus) (char_uuid : String) :
    Option BleakGATTCharacteristicBlueZDBus :=
  s.characteristics.find? (fun c => c.uuid == char_uuid)

/-- A Python callback argument: `callable(f)` is the `callable` field, and
`id` distinguishes distinct function objects. -/
structure PyCallback where
  callable : Bool
  id : Nat
deriving DecidableEq, Repr

/-- The mutable state of a `BlessServerBlueZDBus` instance that the claims
are about: `self.services` (a dict from service uuid string to the bleak
service object), `self.app.services` (the native-side object graph), and the
two callback slots set in `__init__`. -/
structure ServerState where
  services : List (String × BleakGATTServiceBlueZDBus)
  appServices : List BlueZGattService
  connected_callback : PyCallback
  disconnected_callback : PyCallback
deriving DecidableEq, Repr

/-- Python dict lookup `d[k]` as an association-list lookup (first binding
wins; a dict has unique keys). -/
def lookupDict {α : Type} : List (String × α) → String → Option α
  | [], _ => none
  | (k2, v) :: rest, k => if k2 == k then some v else lookupDict rest k

/-- Python dict assignment `d[k] = v`: replaces the binding when the key is
present, appends it otherwise. -/
def insertDict {α : Type} : List (String × α) → String → α → List (String × α)
  | [], k, v => [(k, v)]
  | (k2, v2) :: rest, k, v =>
      if k2 == k then (k2, v) :: rest else (k2, v2) :: insertDict rest k v

/-- Python `str.lower()` as the code applies it to uuid strings: each
character mapped to its lower-case form.  Defined structurally over the
character list so that concrete instances evaluate inside the kernel. -/
def String.pyLower (s : String) : String :=
  String.mk (s.data.map Char.toLower)

/-- Modelled from the spec: `BlueZGattService.get_characteristic` (module
`bless.backends.bluezdbus.service`, not among the sources at hand) locates
the characteristic of a service by its uuid; per §4.3 lookup selects the
first match in iteration order. -/
def BlueZGattService.get_characteristic
    (s : BlueZGattService) (char_uuid : String) :
    Option BlueZGattCharacteristic :=
  s.characteristics.find? (fun c => c.uuid == char_uuid)

/-- The assignment `characteristic.value = cur_value` inside
`update_value`: overwrites the value of the first characteristic with the
given uuid of the first app-side service with the given uuid. -/
def setAppCharValue (services : List BlueZGattService)
    (service_uuid char_uuid : String) (v : List Nat) :
    List BlueZGattService :=
  match services with
  | [] => []
  | sv :: rest =>
      if sv.uuid == service_uuid then
        { sv with characteristics := setCharValue sv.characteristics } :: rest
      else
        sv :: setAppCharValue rest service_uuid char_uuid v
where
  setCharValue : List BlueZGattCharacteristic → List BlueZGattCharacteristic
    | [] => []
    | c :: cs =>
        if c.uuid == char_uuid then { c with value := v } :: cs
        else c :: setCharValue cs

/-- `BlessServerBlueZDBus.update_value(self, service_uuid, char_uuid)`
(src/bless/backends/bluezdbus/server.py, lines 231-282), step by step:
1. `self.services[service_uuid]` — raises `KeyError` when the key is absent;
2. `bless_service.get_characteristic(char_uuid)`, then
   `if not bless_char: return False`;
3. `cur_value = bless_char.value` inside `try/except`, `return False` when
   reading the value raises;
4. `next(iter([...]))` over `self.app.services` filtered by the service
   uuid — raises `StopIteration` when no app-side service matches;
5. `service.get_characteristic(char_uuid)` followed by
   `characteristic.value = cur_value`; when the lookup yields `None` the
   attribute assignment raises;
6. the function then falls off the end: Python returns `None`
   (embedded as `Option.none`), not `True`. -/
def update_value (s : ServerState) (service_uuid char_uuid : String) :
    Except PyErr (Option Bool) × ServerState :=
  match lookupDict s.services service_uuid with
  | none => (.error .keyError, s)
  | some bless_service =>
    match bless_service.get_characteristic char_uuid with
    | none => (.ok (some false), s)
    | some bless_char =>
      match bless_char.value? with
      | none => (.ok (some false), s)
      | some cur_value =>
        match (s.appServices.filter (fun sv => sv.uuid == service_uuid)).head? with
        | none => (.error .stopIteration, s)
        | some service =>
          match service.get_characteristic char_uuid with
          | none => (.error .attributeError, s)
          | some _ =>
              (.ok none,
               { s with appServices :=
                   setAppCharValue s.appServices service_uuid char_uuid cur_value })

/-- The heart-rate service uuid used in the spec scenario (§8). -/
def hrServiceUuid : String := "0000180d-0000-1000-8000-00805f9b34fb"

/-- The heart-rate measurement characteristic uuid from the spec scenario. -/
def hrCharUuid : String := "00002a37-0000-1000-8000-00805f9b34fb"

/-- Default (constructor-time) callback slot: `__init__` installs
`lambda _: None`, a callable. -/
def initCallback : PyCallback := { callable := true, id := 0 }

/-- The bleak-side heart-rate service of the spec scenario, holding one
characteristic with stored value `b""`. -/
def hrBleakService : BleakGATTServiceBlueZDBus :=
  { uuid := hrServiceUuid,
    characteristics := [{ uuid := hrCharUuid, value? := some [] }] }

/-- A concrete server state holding the spec scenario's registered service
and characteristic with stored value `b""`, mirrored both in
`self.services` and in `self.app.services`. -/
def S0 : ServerState :=
  { services := [(hrServiceUuid, hrBleakService)],
    appServices :=
      [{ uuid := hrServiceUuid,
         characteristics := [{ uuid := hrCharUuid, value := [] }] }],
    connected_callback := initCallback,
    disconnected_callback := initCallback }

/-- Claim C1: on a registered characteristic with a stored value,
`update_value` is claimed to return `True`.  The code updates the app-side
value and then falls off the end of the function, so Python returns `None`
(a falsy non-boolean), contradicting the claim and the function's own
`-> bool` annotation and docstring.  Evaluated at the spec scenario state. -/
theorem c1_update_value_returns_none :
    (update_value S0 hrServiceUuid hrCharUuid).1 = Except.ok none ∧
    (update_value S0 hrServiceUuid hrCharUuid).1 ≠ Except.ok (some true) := by
  constructor
  · rfl
  · intro h
    have h2 : (Except.ok none : Except PyErr (Option Bool)) = Except.ok (some true) := h
    exact Option.noConfusion (Except.ok.inj h2)

/-- A service uuid not registered in `S0`. -/
def unknownServiceUuid : String := "0000feed-0000-1000-8000-00805f9b34fb"

/-- A characteristic uuid not registered under the heart-rate service. -/
def unknownCharUuid : String := "00002a38-0000-1000-8000-00805f9b34fb"

/-- Claim C3, counterexample: the claim says `update_value` returns `False`
and does not raise for every pair not identifying a registered
characteristic, including an unknown service uuid.  But
`self.services[service_uuid]` raises `KeyError` when the service uuid is
not a key, so on an unregistered service uuid the call raises instead of
returning `False`. -/
theorem c3_unknown_service_raises_keyerror :
    (update_value S0 unknownServiceUuid hrCharUuid).1 =
      Except.error PyErr.keyError := by
  rfl

/-- Claim C3, amended: when the service uuid is a registered key but the
characteristic uuid is not found within that service, `update_value`
returns `False` without raising and leaves the state unchanged; an
unregistered service uuid instead raises `KeyError`. -/
theorem c3_unknown_char_returns_false
    (s : ServerState) (su cu : String) (svc : BleakGATTServiceBlueZDBus)
    (hsvc : lookupDict s.services su = some svc)
    (hchar : svc.get_characteristic cu = none) :
    update_value s su cu = (Except.ok (some false), s) := by
  simp only [update_value, hsvc, hchar]

/-- Witness for the amended claim C3 at the spec scenario state. -/
theorem c3_unknown_char_returns_false_witness :
    update_value S0 hrServiceUuid unknownCharUuid =
      (Except.ok (some false), S0) :=
  c3_unknown_char_returns_false S0 hrServiceUuid unknownCharUuid
    hrBleakService (by rfl) (by rfl)

/-- Modelled from the spec: `BlueZGattApplication.add_service` (module
`bless.backends.bluezdbus.application`, not among the sources at hand):
registers a new service node in the native object graph and returns it;
per §4.2 it must reject with `DuplicateService` if the uuid is already
registered. -/
def app_add_service (appServices : List BlueZGattService) (u : String) :
    Except PyErr (List BlueZGattService × BlueZGattService) :=
  if appServices.any (fun sv => sv.uuid == u) then
    .error .duplicateService
  else
    let svc : BlueZGattService := { uuid := u, characteristics := [] }
    .ok (appServices ++ [svc], svc)

/-- `BlessServerBlueZDBus.add_new_service(self, service_uuid)`
(src/bless/backends/bluezdbus/server.py, lines 143-167):
awaits `self.setup_task`, converts the argument with `str(...).lower()`,
calls `self.app.add_service`, performs the `getRemoteObject`/`GetAll`
native round trips (abstracted as succeeding), builds the bleak service
object from the just-registered service and stores it under the lowered
uuid with `self.services[service_uuid] = service`. -/
def add_new_service (s : ServerState) (service_uuid : String) :
    Except PyErr Unit × ServerState :=
  let su := service_uuid.pyLower
  match app_add_service s.appServices su with
  | .error e => (.error e, s)
  | .ok (apps2, gatt_service) =>
      (.ok (),
       { s with
           appServices := apps2,
           services := insertDict s.services su
             { uuid := gatt_service.uuid, characteristics := [] } })

/-- The server state right after `__init__`: no services registered,
both callback slots holding the constructor lambdas. -/
def Sempty : ServerState :=
  { services := [], appServices := [],
    connected_callback := initCallback,
    disconnected_callback := initCallback }

/-- Claim C2: after a successful `add_new_service`, a second
`add_new_service` with the same uuid fails with `DuplicateService` and the
server state — in particular the service map — is unchanged by the failed
call. -/
theorem c2_second_add_new_service_duplicate
    (s s2 : ServerState) (u : String)
    (h : add_new_service s u = (Except.ok (), s2)) :
    add_new_service s2 u = (Except.error PyErr.duplicateService, s2) := by
  unfold add_new_service app_add_service at h ⊢
  cases hany : s.appServices.any (fun sv => sv.uuid == u.pyLower) with
  | true => simp [hany] at h
  | false =>
      simp only [hany, Bool.false_eq_true, if_false, Prod.mk.injEq, true_and] at h
      subst h
      simp [List.any_append]

/-- Witness for claim C2: registering the heart-rate service twice on the
fresh server state. -/
theorem c2_second_add_new_service_duplicate_witness :
    add_new_service (add_new_service Sempty hrServiceUuid).2 hrServiceUuid =
      (Except.error PyErr.duplicateService,
       (add_new_service Sempty hrServiceUuid).2) :=
  c2_second_add_new_service_duplicate Sempty
    (add_new_service Sempty hrServiceUuid).2 hrServiceUuid (by rfl)

/-- Modelled from the spec: `BlueZGattApplication.add_characteristic`
(module `bless.backends.bluezdbus.application`, not among the sources at
hand): registers a characteristic with its initial value under the first
service matching the uuid; per §4.2 it fails with `UnknownService` if no
such service is registered and with `DuplicateCharacteristic` if the uuid
already exists in that service. -/
def app_add_characteristic (appServices : List BlueZGattService)
    (su cu : String) (value : List Nat) :
    Except PyErr (List BlueZGattService × BlueZGattCharacteristic) :=
  match appServices with
  | [] => .error .unknownService
  | sv :: rest =>
      if sv.uuid == su then
        if (sv.get_characteristic cu).isSome then
          .error .duplicateCharacteristic
        else
          let c : BlueZGattCharacteristic := { uuid := cu, value := value }
          .ok ({ sv with characteristics := sv.characteristics ++ [c] } :: rest, c)
      else
        match app_add_characteristic rest su cu value with
        | .error e => .error e
        | .ok (rest2, c) => .ok (sv :: rest2, c)

/-- `BlessServerBlueZDBus.add_new_characteristic(self, service_uuid,
char_uuid, properties, value, permissions)`
(src/bless/backends/bluezdbus/server.py, lines 169-229):
awaits `self.setup_task`, computes `Flags.from_bless(properties)` (a pure
conversion with no effect on the properties the claims concern, elided),
lowers both uuids with `str(...).lower()`, replaces a `None` value by
`bytearray(b"")` because DBus cannot carry `None`, calls
`self.app.add_characteristic`, performs the `getRemoteObject`/`GetAll`
round trips (abstracted), builds the bleak characteristic and appends it to
`self.services[service_uuid]` — a lookup that raises `KeyError` when the
lowered uuid is not a key of the service map. -/
def add_new_characteristic (s : ServerState) (service_uuid char_uuid : String)
    (value? : Option (List Nat)) : Except PyErr Unit × ServerState :=
  let su := service_uuid.pyLower
  let cu := char_uuid.pyLower
  let value := match value? with | none => [] | some v => v
  match app_add_characteristic s.appServices su cu value with
  | .error e => (.error e, s)
  | .ok (apps2, gatt_char) =>
      match lookupDict s.services su with
      | none => (.error .keyError, { s with appServices := apps2 })
      | some svc =>
          (.ok (),
           { s with
               appServices := apps2,
               services := insertDict s.services su
                 { svc with characteristics :=
                     svc.characteristics ++
                       [{ uuid := gatt_char.uuid,
                          value? := some gatt_char.value }] } })

/-- The value currently stored in the native object graph for the first
service with uuid `su` at its first characteristic with uuid `cu` (the
lookup path `update_value` itself uses). -/
def appCharValueL (apps : List BlueZGattService) (su cu : String) :
    Option (List Nat) :=
  match (apps.filter (fun sv => sv.uuid == su)).head? with
  | none => none
  | some sv => (sv.get_characteristic cu).map (fun c => c.value)

/-- `List.find?` over an append whose left part has no hit. -/
theorem find?_append_of_none {α : Type} (p : α → Bool) (l1 l2 : List α)
    (h : l1.find? p = none) : (l1 ++ l2).find? p = l2.find? p := by
  induction l1 with
  | nil => rfl
  | cons a l ih =>
      rw [List.find?_cons] at h
      cases hp : p a with
      | true => rw [hp] at h; exact absurd h (by simp)
      | false =>
          rw [hp] at h
          rw [List.cons_append, List.find?_cons, hp]
          exact ih h

/-- A successful `app_add_characteristic` returns the characteristic it
registered — its uuid and initial value are the arguments — and stores it
where the app-side service-then-characteristic lookup finds it. -/
theorem app_add_characteristic_stores
    (apps : List BlueZGattService) (su cu : String) (v : List Nat) :
    ∀ (apps2 : List BlueZGattService) (c : BlueZGattCharacteristic),
      app_add_characteristic apps su cu v = Except.ok (apps2, c) →
      c.uuid = cu ∧ c.value = v ∧ appCharValueL apps2 su cu = some v := by
  induction apps with
  | nil => intro apps2 c h; exact absurd h (by simp [app_add_characteristic])
  | cons sv rest ih =>
      intro apps2 c h
      unfold app_add_characteristic at h
      cases hs : sv.uuid == su with
      | true =>
          simp only [hs, if_true] at h
          cases hdup : (sv.get_characteristic cu).isSome with
          | true => simp [hdup] at h
          | false =>
              simp only [hdup, Bool.false_eq_true, if_false, Except.ok.injEq,
                Prod.mk.injEq] at h
              obtain ⟨h1, h2⟩ := h
              subst h2
              refine ⟨rfl, rfl, ?_⟩
              subst h1
              have hnone : sv.characteristics.find?
                  (fun c => c.uuid == cu) = none := by
                cases hfind : sv.characteristics.find?
                    (fun c => c.uuid == cu) with
                | none => rfl
                | some c0 =>
                    have hsome : (sv.get_characteristic cu).isSome = true := by
                      rw [BlueZGattService.get_characteristic, hfind]; rfl
                    rw [hdup] at hsome
                    exact absurd hsome Bool.false_ne_true
              simp only [appCharValueL, BlueZGattService.get_characteristic,
                List.filter_cons]
              simp only [hs, if_true, List.head?_cons]
              rw [find?_append_of_none _ _ _ hnone]
              simp
      | false =>
          simp only [hs, Bool.false_eq_true, if_false] at h
          cases hrec : app_add_characteristic rest su cu v with
          | error e => rw [hrec] at h; exact absurd h (by simp)
          | ok p =>
              obtain ⟨rest2, c2⟩ := p
              rw [hrec] at h
              simp only [Except.ok.injEq, Prod.mk.injEq] at h
              obtain ⟨h1, h2⟩ := h
              subst h2
              obtain ⟨hu, hv, hl⟩ := ih rest2 c2 hrec
              refine ⟨hu, hv, ?_⟩
              subst h1
              have heq : appCharValueL (sv :: rest2) su cu =
                  appCharValueL rest2 su cu := by
                simp [appCharValueL, List.filter_cons, hs]
              rw [heq]
              exact hl

/-- Claim C7: when the initial value argument is absent (`None`),
`add_new_characteristic` substitutes the explicit empty byte sequence
`bytearray(b"")` — the call behaves exactly as if the caller had passed
`b""` — and on success the registered characteristic's stored value in the
backend object graph is that empty byte sequence, never an absent
sentinel. -/
theorem c7_absent_value_becomes_empty
    (s : ServerState) (su cu : String)
    (hok : (add_new_characteristic s su cu none).1 = Except.ok ()) :
    add_new_characteristic s su cu none =
      add_new_characteristic s su cu (some []) ∧
    appCharValueL (add_new_characteristic s su cu none).2.appServices
      su.pyLower cu.pyLower = some [] := by
  refine ⟨rfl, ?_⟩
  simp only [add_new_characteristic] at hok ⊢
  cases hrec : app_add_characteristic s.appServices su.pyLower cu.pyLower [] with
  | error e => exact absurd hok (by simp [hrec])
  | ok p =>
      obtain ⟨apps2, c⟩ := p
      cases hsvc : lookupDict s.services su.pyLower with
      | none => exact absurd hok (by simp [hrec, hsvc])
      | some svc =>
          simp only [hrec, hsvc]
          exact (app_add_characteristic_stores s.appServices su.pyLower
            cu.pyLower [] apps2 c hrec).2.2

/-- A server state with the heart-rate service registered (in both maps)
and no characteristic yet. -/
def S1 : ServerState :=
  { services := [(hrServiceUuid, { uuid := hrServiceUuid, characteristics := [] })],
    appServices := [{ uuid := hrServiceUuid, characteristics := [] }],
    connected_callback := initCallback,
    disconnected_callback := initCallback }

/-- Witness for claim C7: adding the heart-rate measurement characteristic
with an absent value on `S1`. -/
theorem c7_absent_value_becomes_empty_witness :
    (add_new_characteristic S1 hrServiceUuid hrCharUuid none =
      add_new_characteristic S1 hrServiceUuid hrCharUuid (some [])) ∧
    appCharValueL
      (add_new_characteristic S1 hrServiceUuid hrCharUuid none).2.appServices
      hrServiceUuid.pyLower hrCharUuid.pyLower = some [] :=
  c7_absent_value_becomes_empty S1 hrServiceUuid hrCharUuid (by rfl)

/-- The heart-rate service uuid in upper-case spelling, as a caller may
pass it to the facade. -/
def hrServiceUuidUpper : String := "0000180D-0000-1000-8000-00805F9B34FB"

/-- Claim C6, counterexample: `add_new_service` does normalize — the
upper-case spelling registers the service under the lowercase key — but
`update_value`, called with the very same spelling the caller registered
with, performs no conversion: the verbatim upper-case string is not a key
of the service map, so the lookup raises `KeyError`.  The claim that every
facade operation taking uuid parameters, including `updateValue`, uses the
canonical lowercase form is therefore false. -/
theorem c6_update_value_not_normalized :
    (add_new_service Sempty hrServiceUuidUpper).1 = Except.ok () ∧
    lookupDict (add_new_service Sempty hrServiceUuidUpper).2.services
      hrServiceUuid =
      some { uuid := hrServiceUuid, characteristics := [] } ∧
    (update_value (add_new_service Sempty hrServiceUuidUpper).2
        hrServiceUuidUpper hrCharUuid).1 = Except.error PyErr.keyError := by
  refine ⟨rfl, rfl, rfl⟩

/-- `lookupDict` after `insertDict` at the same key yields the inserted
value. -/
theorem lookupDict_insertDict {α : Type} (d : List (String × α))
    (k : String) (v : α) : lookupDict (insertDict d k v) k = some v := by
  induction d with
  | nil => simp [insertDict, lookupDict]
  | cons kv rest ih =>
      obtain ⟨k2, v2⟩ := kv
      cases hk : k2 == k with
      | true => simp [insertDict, lookupDict, hk]
      | false => simp [insertDict, lookupDict, hk, ih]

/-- The heart-rate measurement characteristic uuid in upper-case spelling,
as a caller may pass it to the facade. -/
def hrCharUuidUpper : String := "00002A37-0000-1000-8000-00805F9B34FB"

/-- Claim C6, amended: `add_new_service` and `add_new_characteristic`
convert their uuid arguments with `str(...).lower()` to the canonical
lowercase string before any storage or backend call — `add_new_service`
stores the new service under the lowered key, and a successful
`add_new_characteristic` registers the characteristic in the backend
object graph under the lowered service and characteristic uuids (with the
absent-value substitution of claim C7) — but `update_value` performs no
such conversion: it looks the service map up with its arguments verbatim,
raising `KeyError` whenever the verbatim string is not a key, so callers
of `update_value` must themselves pass the canonical lowercase form. -/
theorem c6_add_normalizes_update_value_verbatim
    (s : ServerState) (u su cu : String) (v? : Option (List Nat))
    (hnew : s.appServices.any (fun sv => sv.uuid == u.pyLower) = false)
    (hmiss : lookupDict s.services su = none)
    (hok : (add_new_characteristic s su cu v?).1 = Except.ok ()) :
    lookupDict (add_new_service s u).2.services u.pyLower =
      some { uuid := u.pyLower, characteristics := [] } ∧
    appCharValueL (add_new_characteristic s su cu v?).2.appServices
      su.pyLower cu.pyLower =
      some (match v? with | none => [] | some v => v) ∧
    (update_value s su cu).1 = Except.error PyErr.keyError := by
  refine ⟨?_, ?_, ?_⟩
  · simp only [add_new_service, app_add_service, hnew, Bool.false_eq_true,
      if_false]
    exact lookupDict_insertDict s.services u.pyLower _
  · cases v? with
    | none =>
        simp only [add_new_characteristic] at hok ⊢
        cases hrec : app_add_characteristic s.appServices su.pyLower
            cu.pyLower [] with
        | error e => exact absurd hok (by simp [hrec])
        | ok p =>
            obtain ⟨apps2, c⟩ := p
            cases hsvc : lookupDict s.services su.pyLower with
            | none => exact absurd hok (by simp [hrec, hsvc])
            | some svc =>
                simp only [hrec, hsvc]
                exact (app_add_characteristic_stores s.appServices su.pyLower
                  cu.pyLower [] apps2 c hrec).2.2
    | some v =>
        simp only [add_new_characteristic] at hok ⊢
        cases hrec : app_add_characteristic s.appServices su.pyLower
            cu.pyLower v with
        | error e => exact absurd hok (by simp [hrec])
        | ok p =>
            obtain ⟨apps2, c⟩ := p
            cases hsvc : lookupDict s.services su.pyLower with
            | none => exact absurd hok (by simp [hrec, hsvc])
            | some svc =>
                simp only [hrec, hsvc]
                exact (app_add_characteristic_stores s.appServices su.pyLower
                  cu.pyLower v apps2 c hrec).2.2
  · simp only [update_value, hmiss]

/-- Witness for the amended claim C6 on `S1`: a fresh service is stored
under its lowercase uuid; `add_new_characteristic` called with upper-case
spellings of both uuids registers the characteristic under the lowered
uuids; and `update_value` with the upper-case spelling of the registered
heart-rate service uuid raises `KeyError`. -/
theorem c6_add_normalizes_update_value_verbatim_witness :
    (lookupDict (add_new_service S1 unknownServiceUuid).2.services
        unknownServiceUuid.pyLower =
      some { uuid := unknownServiceUuid.pyLower, characteristics := [] }) ∧
    appCharValueL
      (add_new_characteristic S1 hrServiceUuidUpper hrCharUuidUpper
        (some [1, 2])).2.appServices
      hrServiceUuidUpper.pyLower hrCharUuidUpper.pyLower = some [1, 2] ∧
    (update_value S1 hrServiceUuidUpper hrCharUuidUpper).1 =
      Except.error PyErr.keyError :=
  c6_add_normalizes_update_value_verbatim S1 unknownServiceUuid
    hrServiceUuidUpper hrCharUuidUpper (some [1, 2])
    (by rfl) (by rfl) (by rfl)

/-- One step of a facade operation's body, abstracted to what claim C8 is
about: awaiting `self.setup_task`, issuing a native (DBus/adapter) call, or
pure in-memory work. -/
inductive Step where
  | awaitSetup
  | nativeCall
  | localOp
deriving DecidableEq, BEq, Repr

/-- The facade operations of `BlessServerBlueZDBus`. -/
inductive FacadeOp where
  | start
  | stop
  | is_connected
  | is_advertising
  | add_new_service
  | add_new_characteristic
  | update_value
  | disconnect
  | set_connected_callback
  | set_disconnected_callback
deriving DecidableEq, BEq, Repr

/-- The sequence of steps each facade operation performs, transcribed from
the body of the corresponding method of `BlessServerBlueZDBus`
(src/bless/backends/bluezdbus/server.py):
* `start`: `await self.setup_task`; then `exportObject`,
  `requestBusName`, `app.register`, `app.start_advertising` (native);
* `stop`: `app.stop_advertising`, `app.unregister` (native) — no await of
  `setup_task`;
* `is_connected`: `app.is_connected()` (native) — no await of `setup_task`;
* `is_advertising`: `await self.setup_task`; `app.is_advertising` (native);
* `add_new_service`: `await self.setup_task`; `app.add_service`,
  `getRemoteObject`, `GetAll` (native); dict insert (local);
* `add_new_characteristic`: `await self.setup_task`; flag conversion
  (local); `app.add_characteristic`, `getRemoteObject`, `GetAll` (native);
  append to service (local);
* `update_value`: synchronous — dict/obj lookups (local), then the
  assignment to `BlueZGattCharacteristic.value`, which (modelled from the
  spec: §6 `updateValue` re-pushes the stored value through `notify`, a
  native push to the stack) is a native call — no await of `setup_task`;
* `disconnect`: device-path string work (local); `callRemote Disconnect`
  (native) — no await of `setup_task`;
* `set_connected_callback` / `set_disconnected_callback`: callable check
  and slot assignment (local); `bus.addMatch` (native) — no await of
  `setup_task`. -/
def opTrace : FacadeOp → List Step
  | .start => [.awaitSetup, .nativeCall, .nativeCall, .nativeCall, .nativeCall]
  | .stop => [.nativeCall, .nativeCall]
  | .is_connected => [.nativeCall]
  | .is_advertising => [.awaitSetup, .nativeCall]
  | .add_new_service => [.awaitSetup, .nativeCall, .nativeCall, .nativeCall, .localOp]
  | .add_new_characteristic =>
      [.awaitSetup, .localOp, .nativeCall, .nativeCall, .nativeCall, .localOp]
  | .update_value => [.localOp, .localOp, .nativeCall]
  | .disconnect => [.localOp, .nativeCall]
  | .set_connected_callback => [.localOp, .localOp, .nativeCall]
  | .set_disconnected_callback => [.localOp, .localOp, .nativeCall]

/-- An operation awaits the single setup task before issuing any native
call: scanning its steps in order, an `awaitSetup` is reached before the
first `nativeCall` (vacuously true when the trace holds no native call). -/
def awaitsSetupBeforeNative : List Step → Bool
  | [] => true
  | .awaitSetup :: _ => true
  | .nativeCall :: _ => false
  | .localOp :: rest => awaitsSetupBeforeNative rest

/-- Claim C8, counterexample: the claim says every facade operation — in
particular `is_connected`, `stop` and `update_value` — awaits the
initialization's completion before issuing any native call; but the bodies
of exactly those three operations issue their native calls without
awaiting `self.setup_task`. -/
theorem c8_three_ops_do_not_await_setup :
    awaitsSetupBeforeNative (opTrace FacadeOp.is_connected) = false ∧
    awaitsSetupBeforeNative (opTrace FacadeOp.stop) = false ∧
    awaitsSetupBeforeNative (opTrace FacadeOp.update_value) = false := by
  exact ⟨rfl, rfl, rfl⟩

/-- Claim C8, amended: only `start`, `is_advertising`, `add_new_service`
and `add_new_characteristic` await the single setup task (created once in
`__init__`, so no operation re-triggers the bootstrap) before issuing
native calls; `is_connected`, `stop`, `update_value`, `disconnect` and the
two callback-registration operations issue their native calls without
awaiting it. -/
theorem c8_exactly_four_ops_await_setup (op : FacadeOp) :
    awaitsSetupBeforeNative (opTrace op) =
      (op == FacadeOp.start || op == FacadeOp.is_advertising ||
       op == FacadeOp.add_new_service || op == FacadeOp.add_new_characteristic) := by
  cases op <;> rfl

/-- Modelled from the spec: `BaseBlessServer.read_request` (module
`bless.backends.server`, not among the sources at hand): per §4.3, invokes
the single application-registered read-handler with the characteristic
uuid and returns the handler's byte sequence. -/
def read_request (read_handler : String → List Nat) (char_uuid : String) :
    List Nat :=
  read_handler char_uuid

/-- `BlessServerBlueZDBus.read(self, char)`
(src/bless/backends/bluezdbus/server.py, lines 284-300): re-routes the
inbound native read event to `self.read_request(char.uuid)`. -/
def read (read_handler : String → List Nat)
    (char : BlueZGattCharacteristic) : List Nat :=
  read_request read_handler char.uuid

/-- Claim C4: an inbound native read event on a registered characteristic
replies with the read-handler's result for the characteristic's uuid, not
with the stored value: the reply equals the handler's byte sequence and is
unchanged under any change of the stored value, covering every stored
value `V` and handler result `W`, including `V ≠ W`. -/
theorem c4_read_replies_with_handler_result
    (h : String → List Nat) (char : BlueZGattCharacteristic)
    (v : List Nat) :
    read h char = h char.uuid ∧
    read h { char with value := v } = read h char := by
  exact ⟨rfl, rfl⟩

/-- Modelled from the spec: `BaseBlessServer.write_request` (module
`bless.backends.server`, not among the sources at hand): per §4.3, invokes
the single application-registered write-handler with `(uuid, value)` and
does not itself persist the value.  The result is the list of handler
invocations the call performs, each an argument pair. -/
def write_request (char_uuid : String) (value : List Nat) :
    List (String × List Nat) :=
  [(char_uuid, value)]

/-- `BlessServerBlueZDBus.write(self, char, value)`
(src/bless/backends/bluezdbus/server.py, lines 302-316): re-routes the
inbound native write event to `self.write_request(char.uuid, value)`; the
server state is not touched. -/
def write (s : ServerState) (char : BlueZGattCharacteristic)
    (value : List Nat) : List (String × List Nat) × ServerState :=
  (write_request char.uuid value, s)

/-- Claim C5: an inbound native write event with payload `P` invokes the
write-handler exactly once, with exactly the pair (characteristic uuid,
`P`), and the router leaves the server state — in particular every stored
characteristic value — unchanged. -/
theorem c5_write_invokes_handler_once_no_commit
    (s : ServerState) (char : BlueZGattCharacteristic) (p : List Nat) :
    write s char p = ([(char.uuid, p)], s) := by
  exact rfl

/-- `BlessServerBlueZDBus.disconnect(self, device_mac)`
(src/bless/backends/bluezdbus/server.py, lines 318-342): computes the
device path from the adapter path and the mac (pure string work), then
issues `bus.callRemote(..., Disconnect, ...)` inside `try/except`; a
failure of the native call is caught, logged, and reported as `False`,
success as `True`.  The outcome of the native call is the
`nativeDisconnect` argument; the `Except Unit` result layer shows no
exception escapes the method. -/
def disconnect (nativeDisconnect : Except Unit Unit) (device_mac : String) :
    Except Unit Bool :=
  match nativeDisconnect with
  | .error _ => .ok false
  | .ok _ => .ok true

/-- `BlessServerBlueZDBus.set_connected_callback(self, callback_function)`
(src/bless/backends/bluezdbus/server.py, lines 344-369): returns `False`
if the argument is not callable; otherwise assigns
`self.connected_callback = callback_function` and only then attempts
`bus.addMatch` inside `try/except`, returning `False` on a caught native
failure and `True` on success.  The slot assignment is not rolled back on
failure. -/
def set_connected_callback (s : ServerState)
    (nativeAddMatch : Except Unit Unit) (callback_function : PyCallback) :
    Except Unit Bool × ServerState :=
  if !callback_function.callable then (.ok false, s)
  else
    let s2 := { s with connected_callback := callback_function }
    match nativeAddMatch with
    | .error _ => (.ok false, s2)
    | .ok _ => (.ok true, s2)

/-- `BlessServerBlueZDBus.set_disconnected_callback(self,
callback_function)` (src/bless/backends/bluezdbus/server.py, lines
371-396): same shape as `set_connected_callback`, on the
`disconnected_callback` slot. -/
def set_disconnected_callback (s : ServerState)
    (nativeAddMatch : Except Unit Unit) (callback_function : PyCallback) :
    Except Unit Bool × ServerState :=
  if !callback_function.callable then (.ok false, s)
  else
    let s2 := { s with disconnected_callback := callback_function }
    match nativeAddMatch with
    | .error _ => (.ok false, s2)
    | .ok _ => (.ok true, s2)

/-- Claim C9: when the underlying native transport call fails, each of
`disconnect`, `set_connected_callback` and `set_disconnected_callback`
catches the failure and returns boolean `False`; and for every native
outcome each operation returns an ordinary boolean — the exception is
never propagated to the caller. -/
theorem c9_native_failures_reported_as_false
    (s : ServerState) (mac : String) (fn : PyCallback)
    (hc : fn.callable = true) :
    disconnect (Except.error ()) mac = Except.ok false ∧
    (set_connected_callback s (Except.error ()) fn).1 = Except.ok false ∧
    (set_disconnected_callback s (Except.error ()) fn).1 = Except.ok false ∧
    (∀ native, ∃ b, disconnect native mac = Except.ok b) ∧
    (∀ native, ∃ b, (set_connected_callback s native fn).1 = Except.ok b) ∧
    (∀ native, ∃ b, (set_disconnected_callback s native fn).1 = Except.ok b) := by
  refine ⟨rfl, ?_, ?_, ?_, ?_, ?_⟩
  · simp [set_connected_callback, hc]
  · simp [set_disconnected_callback, hc]
  · intro native
    cases native with
    | error e => exact ⟨false, rfl⟩
    | ok u => exact ⟨true, rfl⟩
  · intro native
    cases native with
    | error e => exact ⟨false, by simp [set_connected_callback, hc]⟩
    | ok u => exact ⟨true, by simp [set_connected_callback, hc]⟩
  · intro native
    cases native with
    | error e => exact ⟨false, by simp [set_disconnected_callback, hc]⟩
    | ok u => exact ⟨true, by simp [set_disconnected_callback, hc]⟩

/-- Witness for claim C9 at a concrete state, mac and callable function. -/
theorem c9_native_failures_reported_as_false_witness :
    disconnect (Except.error ()) hrServiceUuid = Except.ok false ∧
    (set_connected_callback S0 (Except.error ()) initCallback).1 =
      Except.ok false ∧
    (set_disconnected_callback S0 (Except.error ()) initCallback).1 =
      Except.ok false ∧
    (∀ native, ∃ b, disconnect native hrServiceUuid = Except.ok b) ∧
    (∀ native, ∃ b,
      (set_connected_callback S0 native initCallback).1 = Except.ok b) ∧
    (∀ native, ∃ b,
      (set_disconnected_callback S0 native initCallback).1 = Except.ok b) :=
  c9_native_failures_reported_as_false S0 hrServiceUuid initCallback rfl

/-- Claim C10: for a callable argument, both callback-registration
operations replace the in-memory slot with the new function for every
native outcome — in particular, when the native match registration fails
and the operation returns `False`, the slot still holds the new function:
the replacement, performed before the native call is attempted, is not
rolled back on error. -/
theorem c10_callback_slot_replaced_before_native
    (s : ServerState) (native : Except Unit Unit) (fn : PyCallback)
    (hc : fn.callable = true) :
    (set_connected_callback s native fn).2.connected_callback = fn ∧
    (set_disconnected_callback s native fn).2.disconnected_callback = fn ∧
    (set_connected_callback s (Except.error ()) fn).1 = Except.ok false ∧
    (set_connected_callback s (Except.error ()) fn).2.connected_callback = fn ∧
    (set_disconnected_callback s (Except.error ()) fn).1 = Except.ok false ∧
    (set_disconnected_callback s (Except.error ()) fn).2.disconnected_callback
      = fn := by
  refine ⟨?_, ?_, ?_, ?_, ?_, ?_⟩ <;>
    cases native <;> simp [set_connected_callback, set_disconnected_callback, hc]

/-- Witness for claim C10: a fresh callable function registered on `S0`
with a failing native match registration. -/
theorem c10_callback_slot_replaced_before_native_witness :
    (set_connected_callback S0 (Except.error ())
      { callable := true, id := 7 }).2.connected_callback =
        { callable := true, id := 7 } ∧
    (set_disconnected_callback S0 (Except.error ())
      { callable := true, id := 7 }).2.disconnected_callback =
        { callable := true, id := 7 } ∧
    (set_connected_callback S0 (Except.error ())
      { callable := true, id := 7 }).1 = Except.ok false ∧
    (set_connected_callback S0 (Except.error ())
      { callable := true, id := 7 }).2.connected_callback =
        { callable := true, id := 7 } ∧
    (set_disconnected_callback S0 (Except.error ())
      { callable := true, id := 7 }).1 = Except.ok false ∧
    (set_disconnected_callback S0 (Except.error ())
      { callable := true, id := 7 }).2.disconnected_callback =
        { callable := true, id := 7 } :=
  c10_callback_slot_replaced_before_native S0 (Except.error ())
    { callable := true, id := 7 } rfl
